import Mathlib

/-!
Verification of the identity-gated vote-casting workflow of
secure-vote-face-chain.

The development shallowly embeds the TypeScript sources:

* `VotingContract.ts` — data model (`Candidate`, `Election`,
  `VoteTransaction`) and the lazily created singleton `VotingContract`;
* the `useVoting` hook — the workflow state (`step`, selections,
  `transactionHash`) and its handlers, in particular `handleCastVote`;
* the `useFaceVerification` hook — `verifyFace` and
  `simulateFaceComparison`;
* the `OTPVerification` component — `generateOTP` and `handleVerify`.

React `useState` cells become fields of explicit state records; each
handler becomes a pure function from the old state (plus the inputs it
reads) to the new state, together with an explicit outcome value that
records which user-visible result the handler produced (toast kind,
callback invoked, error caught).  Calls into external collaborators
(the Supabase-backed services behind `VotingContract`, `Math.random`)
are passed in as parameters, so each theorem quantifies over every
behaviour the collaborator may show.
-/

/-! ## Data model (`VotingContract.ts`) -/

/-- `Candidate` record from `VotingContract.ts`. -/
structure Candidate where
  id : Nat
  name : String
  party : String
  voteCount : Nat
deriving DecidableEq, Repr

/-- `Election` record from `VotingContract.ts`; timestamps are modelled
as integers. -/
structure Election where
  id : Nat
  title : String
  description : String
  startDate : Int
  endDate : Int
  candidates : List Candidate
  isActive : Bool
deriving DecidableEq, Repr

/-- `VoteTransaction` record from `VotingContract.ts`. -/
structure VoteTransaction where
  transactionHash : String
  blockNumber : Nat
  timestamp : Int
  voter : String
  electionId : Nat
  candidateId : Nat
deriving DecidableEq, Repr

/-- The authenticated user supplied by `useAuth`; only its `id` is read
by the workflow. -/
structure AuthUser where
  id : String
deriving DecidableEq, Repr

/-! ## The `VotingContract` singleton

`ElectionService` and `VotingService` are opaque collaborators; for the
singleton claim only their identity matters, so each carries the
allocation token of the `new` that built it. -/

/-- Identity token of an `ElectionService` allocation. -/
structure ElectionService where
  serviceId : Nat
deriving DecidableEq, Repr

/-- Identity token of a `VotingService` allocation. -/
structure VotingService where
  serviceId : Nat
deriving DecidableEq, Repr

/-- The `VotingContract` object: its private constructor creates one
`ElectionService` and one `VotingService`.  `fresh` is the allocation
token of this construction, standing for JavaScript object identity. -/
structure VotingContract where
  fresh : Nat
  electionService : ElectionService
  votingService : VotingService
deriving DecidableEq, Repr

/-- The private constructor of `VotingContract`: `new ElectionService()`
and `new VotingService()` with this object's allocation token. -/
def VotingContract.construct (fresh : Nat) : VotingContract :=
  { fresh := fresh
    electionService := { serviceId := fresh }
    votingService := { serviceId := fresh } }

/-- `VotingContract.getInstance`: the static `instance` field is the
input state (`none` before the first call); if unset, construct and
store a new object (using the allocator's next token), then return the
stored object together with the updated static field. -/
def VotingContract.getInstance (fresh : Nat) :
    Option VotingContract → VotingContract × Option VotingContract
  | some c => (c, some c)
  | none =>
      let c := VotingContract.construct fresh
      (c, some c)

/-! ## The `useVoting` workflow state and handlers -/

/-- The `useState` cells of the `useVoting` hook that the handlers
read or write.  `step` starts at 1; step 3 is the OTP stage, step 4
election selection (verification complete), step 5 candidate
selection, step 6 confirmation. -/
structure VotingHookState where
  step : Nat
  isLoading : Bool
  elections : List Election
  selectedElection : Option Election
  selectedCandidate : Option Candidate
  transactionHash : Option String
deriving DecidableEq, Repr

/-- The initial state of the hook: `useState(1)`, `useState(true)`,
empty lists and `null`s. -/
def initialVotingHookState : VotingHookState :=
  { step := 1
    isLoading := true
    elections := []
    selectedElection := none
    selectedCandidate := none
    transactionHash := none }

/-- `handleFaceVerificationSuccess`: toast, then `setStep(3)`. -/
def handleFaceVerificationSuccess (s : VotingHookState) : VotingHookState :=
  { s with step := 3 }

/-- `handleFaceVerificationError`: toast, then `setStep(1)`. -/
def handleFaceVerificationError (s : VotingHookState) : VotingHookState :=
  { s with step := 1 }

/-- `handleOTPVerificationSuccess`: toast, then `setStep(4)`. -/
def handleOTPVerificationSuccess (s : VotingHookState) : VotingHookState :=
  { s with step := 4 }

/-- `handleOTPVerificationError`: only a toast; no state cell is
written. -/
def handleOTPVerificationError (s : VotingHookState) : VotingHookState :=
  s

/-- `handleSelectElection`: `setSelectedElection(election)` then
`setStep(5)`, with no precondition checked. -/
def handleSelectElection (e : Election) (s : VotingHookState) : VotingHookState :=
  { s with selectedElection := some e, step := 5 }

/-- `handleSelectCandidate`: `setSelectedCandidate(candidate)`. -/
def handleSelectCandidate (c : Candidate) (s : VotingHookState) : VotingHookState :=
  { s with selectedCandidate := some c }

/-- Errors the `VotingService.castVote` promise may reject with, as
observed by `handleCastVote`'s `catch` (which treats every `Error`
uniformly, reading only its message). -/
inductive VoteError where
  | alreadyVoted
  | electionNotActive
  | invalidCandidate
  | other (msg : String)
deriving DecidableEq, Repr

/-- The behaviour of the `VotingContract` collaborator as observed by
`handleCastVote`: the non-authoritative `hasUserVoted` lookup and the
atomic `castVote` call. -/
structure LedgerBehavior where
  hasUserVoted : String → Nat → Bool
  castVote : String → Nat → Nat → Except VoteError VoteTransaction

/-- The user-visible outcome of one `handleCastVote` invocation. -/
inductive CastOutcome where
  /-- guard hit (`!selectedElection || !selectedCandidate || !user`):
  silent `return`, nothing shown. -/
  | noOp
  /-- the `hasUserVoted` short-circuit fired: "Already Voted" toast. -/
  | alreadyVotedEarly
  /-- `castVote` resolved: success toast, confirmation step. -/
  | success (t : VoteTransaction)
  /-- `castVote` rejected: the error was caught and toasted. -/
  | failed (e : VoteError)
deriving DecidableEq, Repr

/-- Result of one `handleCastVote` invocation: the final state of the
hook's cells, the outcome, and how many times the atomic
`votingContract.castVote` was invoked. -/
structure CastResult where
  state : VotingHookState
  outcome : CastOutcome
  castVoteCalls : Nat
deriving DecidableEq, Repr

/-- `handleCastVote` from `useVoting`: guard on missing selection or
user (silent return), `setIsLoading(true)`, the `hasUserVoted`
short-circuit, then the single `castVote` call; on success
`setTransactionHash` and `setStep(6)`, on rejection only a toast; the
`finally` block ends with `setIsLoading(false)` on every non-guard
path. -/
def handleCastVote (ledger : LedgerBehavior) (user : Option AuthUser)
    (s : VotingHookState) : CastResult :=
  match s.selectedElection, s.selectedCandidate, user with
  | some e, some c, some u =>
      if ledger.hasUserVoted u.id e.id then
        { state := { s with isLoading := false }
          outcome := .alreadyVotedEarly
          castVoteCalls := 0 }
      else
        match ledger.castVote u.id e.id c.id with
        | .ok t =>
            { state := { s with
                transactionHash := some t.transactionHash
                step := 6
                isLoading := false }
              outcome := .success t
              castVoteCalls := 1 }
        | .error err =>
            { state := { s with isLoading := false }
              outcome := .failed err
              castVoteCalls := 1 }
  | _, _, _ => { state := s, outcome := .noOp, castVoteCalls := 0 }

/-! ## Face verification (`useFaceVerification.ts`) -/

/-- Result object resolved by `simulateFaceComparison`. -/
structure FaceComparisonResult where
  verified : Bool
  confidence : ℚ
deriving DecidableEq, Repr

/-- `simulateFaceComparison`: the verified outcome is decided by one
`Math.random()` draw (`draw`) against a threshold that depends only on
whether a reference image is present (0.7 with a reference, 0.8
without); a second draw (`confDraw`) only shapes the confidence
value. -/
def simulateFaceComparison (capturedImage : String)
    (referenceImage : Option String) (draw confDraw : ℚ) :
    FaceComparisonResult :=
  match capturedImage, referenceImage with
  | _, some _ =>
      if draw < 7/10 then
        { verified := true, confidence := 8/10 + confDraw * (15/100) }
      else
        { verified := false, confidence := 5/10 + confDraw * (2/10) }
  | _, none =>
      if draw < 8/10 then
        { verified := true, confidence := 7/10 + confDraw * (2/10) }
      else
        { verified := false, confidence := 3/10 + confDraw * (3/10) }

/-- The user-visible outcome of one `verifyFace` attempt. -/
inductive FaceOutcome where
  /-- "Reference Image Missing" toast; the attempt stops before any
  comparison and `onVerified` is not called. -/
  | referenceMissing
  /-- comparison verified: success toast, `onVerified` scheduled. -/
  | verified
  /-- comparison not verified: failure toast, reset for retry. -/
  | mismatch
deriving DecidableEq, Repr

/-- `verifyFace` from `useFaceVerification.ts`: the reference-missing
guard is `if (!referenceImage && user)`; otherwise the simulated
comparison decides between the `onVerified` branch and the retry
branch. -/
def verifyFace (user : Option AuthUser) (referenceImage : Option String)
    (capturedImageData : String) (draw confDraw : ℚ) : FaceOutcome :=
  if referenceImage.isNone && user.isSome then
    .referenceMissing
  else if (simulateFaceComparison capturedImageData referenceImage
      draw confDraw).verified then
    .verified
  else
    .mismatch

/-! ## OTP verification (`OTPVerification` component) -/

/-- `generateOTP`'s code computation:
`Math.floor(1000 + Math.random() * 9000).toString()` for a draw
`r ∈ [0,1)`. -/
def generateOTP (r : ℚ) : String :=
  toString (Int.toNat ⌊(1000 : ℚ) + r * 9000⌋)

/-- The user-visible outcome of one `handleVerify` invocation. -/
inductive OtpOutcome where
  /-- fewer than 4 digits entered: "Incomplete OTP" toast, no
  verification. -/
  | incomplete
  /-- code matches: success toast, `onVerified` called. -/
  | verified
  /-- code does not match: failure toast, entered code cleared,
  `onError` called. -/
  | invalid
deriving DecidableEq, Repr

/-- `handleVerify` from the `OTPVerification` component, returning the
outcome and the value of the `otp` state cell afterwards (cleared to
the empty string on mismatch). -/
def handleVerify (otp generatedOtp : String) : OtpOutcome × String :=
  if otp.length < 4 then
    (.incomplete, otp)
  else if otp = generatedOtp then
    (.verified, otp)
  else
    (.invalid, "")

/-! ## Concrete fixtures used by counterexamples and witnesses -/

/-- A concrete candidate. -/
def sampleCandidate : Candidate :=
  { id := 101, name := "A", party := "P", voteCount := 0 }

/-- A concrete active election containing `sampleCandidate`. -/
def sampleElection : Election :=
  { id := 42, title := "General", description := ""
    startDate := 0, endDate := 100
    candidates := [sampleCandidate], isActive := true }

/-- A concrete transaction as `castVote` would resolve it. -/
def sampleTxn : VoteTransaction :=
  { transactionHash := "0xabc", blockNumber := 1, timestamp := 5
    voter := "v1", electionId := 42, candidateId := 101 }

/-- A concrete user. -/
def sampleUser : AuthUser := { id := "v1" }

/-- A ledger on which the lookup reports "not voted" and the atomic
call succeeds with `sampleTxn`. -/
def permissiveLedger : LedgerBehavior :=
  { hasUserVoted := fun _ _ => false
    castVote := fun _ _ _ => .ok sampleTxn }

/-- A ledger on which the lookup reports "not voted" but the atomic
call rejects with `AlreadyVoted` (the race the spec discusses). -/
def racingLedger : LedgerBehavior :=
  { hasUserVoted := fun _ _ => false
    castVote := fun _ _ _ => .error .alreadyVoted }

/-- A ledger whose non-authoritative lookup already reports "voted". -/
def votedLedger : LedgerBehavior :=
  { hasUserVoted := fun _ _ => true
    castVote := fun _ _ _ => .error .alreadyVoted }

/-- A state below the Verified stage (`step = 1`, the workflow's
initial step) in which an election and a candidate are nevertheless
selected — reachable because `handleSelectElection`,
`handleSelectCandidate` and the exposed `setStep` check no
precondition. -/
def unverifiedSelectedState : VotingHookState :=
  { step := 1
    isLoading := false
    elections := [sampleElection]
    selectedElection := some sampleElection
    selectedCandidate := some sampleCandidate
    transactionHash := none }

/-- A state at the candidate-selection stage (`step = 5`) with both
selections made, ready to cast. -/
def readyToCastState : VotingHookState :=
  { step := 5
    isLoading := false
    elections := [sampleElection]
    selectedElection := some sampleElection
    selectedCandidate := some sampleCandidate
    transactionHash := none }

/-! ## Claims -/

/-- C1, counterexample: invoked below the Verified stage (step 1, the
initial step) with both selections made, `handleCastVote` does not
fail at all — it creates a `VoteTransaction` and moves the workflow to
step 6, contradicting the claim that such a call always fails with
`InvalidWorkflowState` with no transaction and no state change. -/
theorem C1_counterexample :
    unverifiedSelectedState.step = 1 ∧
    (handleCastVote permissiveLedger (some sampleUser)
      unverifiedSelectedState).outcome = .success sampleTxn ∧
    (handleCastVote permissiveLedger (some sampleUser)
      unverifiedSelectedState).state.step = 6 :=
  ⟨rfl, rfl, rfl⟩

/-- C1 (amended): `handleCastVote` checks no verification state and no
`InvalidWorkflowState` error exists in the code; its only guard is a
missing selection or user, in which case it returns silently with a
`noOp` outcome, makes no atomic call, and changes no state cell. -/
theorem C1_guard_no_side_effect (ledger : LedgerBehavior)
    (user : Option AuthUser) (s : VotingHookState)
    (h : s.selectedElection = none ∨ s.selectedCandidate = none ∨
      user = none) :
    handleCastVote ledger user s =
      { state := s, outcome := .noOp, castVoteCalls := 0 } := by
  unfold handleCastVote
  rcases hE : s.selectedElection with _ | e <;>
    rcases hC : s.selectedCandidate with _ | c <;>
      rcases user with _ | u <;> simp_all

/-- Witness for `C1_guard_no_side_effect` at a concrete input. -/
theorem C1_witness :
    (initialVotingHookState.selectedElection = none ∨
      initialVotingHookState.selectedCandidate = none ∨
      (none : Option AuthUser) = none) ∧
    handleCastVote permissiveLedger none initialVotingHookState =
      { state := initialVotingHookState, outcome := .noOp,
        castVoteCalls := 0 } :=
  ⟨Or.inl rfl,
    C1_guard_no_side_effect permissiveLedger none initialVotingHookState
      (Or.inl rfl)⟩

/-- C2: when the non-authoritative `hasUserVoted` lookup reports the
voter already voted in the selected election, `handleCastVote` ends
with the `AlreadyVoted` outcome, never invokes the atomic `castVote`,
and leaves step, selected election, selected candidate and transaction
hash unchanged. -/
theorem C2_hasVoted_short_circuit (ledger : LedgerBehavior)
    (u : AuthUser) (e : Election) (c : Candidate) (s : VotingHookState)
    (hE : s.selectedElection = some e)
    (hC : s.selectedCandidate = some c)
    (hV : ledger.hasUserVoted u.id e.id = true) :
    (handleCastVote ledger (some u) s).outcome = .alreadyVotedEarly ∧
    (handleCastVote ledger (some u) s).castVoteCalls = 0 ∧
    (handleCastVote ledger (some u) s).state.step = s.step ∧
    (handleCastVote ledger (some u) s).state.selectedElection
      = s.selectedElection ∧
    (handleCastVote ledger (some u) s).state.selectedCandidate
      = s.selectedCandidate ∧
    (handleCastVote ledger (some u) s).state.transactionHash
      = s.transactionHash := by
  unfold handleCastVote
  rw [hE, hC]
  simp [hV]

/-- Witness for `C2_hasVoted_short_circuit` at a concrete input. -/
theorem C2_witness :
    readyToCastState.selectedElection = some sampleElection ∧
    readyToCastState.selectedCandidate = some sampleCandidate ∧
    votedLedger.hasUserVoted sampleUser.id sampleElection.id = true ∧
    (handleCastVote votedLedger (some sampleUser)
      readyToCastState).outcome = .alreadyVotedEarly ∧
    (handleCastVote votedLedger (some sampleUser)
      readyToCastState).castVoteCalls = 0 :=
  ⟨rfl, rfl, rfl,
    (C2_hasVoted_short_circuit votedLedger sampleUser sampleElection
      sampleCandidate readyToCastState rfl rfl rfl).1,
    (C2_hasVoted_short_circuit votedLedger sampleUser sampleElection
      sampleCandidate readyToCastState rfl rfl rfl).2.1⟩

/-- C3, counterexample: when the atomic `castVote` rejects with
`AlreadyVoted`, the workflow does not transition anywhere — the state
after the call is identical to the state before it (no `Rejected`
state exists in the code), contradicting the claimed transition to a
terminal `Rejected(AlreadyVoted)` state. -/
theorem C3_counterexample :
    (handleCastVote racingLedger (some sampleUser)
      readyToCastState).outcome = .failed .alreadyVoted ∧
    (handleCastVote racingLedger (some sampleUser)
      readyToCastState).state = readyToCastState :=
  ⟨rfl, rfl⟩

/-- C3 (amended): when the atomic `castVote` rejects with
`AlreadyVoted`, `handleCastVote` catches it and surfaces a
`failed AlreadyVoted` outcome, leaves every workflow cell unchanged
apart from resetting `isLoading` (the code has no `Rejected` state),
and never retries: the atomic call is invoked exactly once. -/
theorem C3_already_voted_no_retry (ledger : LedgerBehavior)
    (u : AuthUser) (e : Election) (c : Candidate) (s : VotingHookState)
    (hE : s.selectedElection = some e)
    (hC : s.selectedCandidate = some c)
    (hV : ledger.hasUserVoted u.id e.id = false)
    (hCast : ledger.castVote u.id e.id c.id = .error .alreadyVoted) :
    handleCastVote ledger (some u) s =
      { state := { s with isLoading := false },
        outcome := .failed .alreadyVoted, castVoteCalls := 1 } := by
  unfold handleCastVote
  rw [hE, hC]
  simp [hV, hCast]

/-- Witness for `C3_already_voted_no_retry` at a concrete input. -/
theorem C3_witness :
    readyToCastState.selectedElection = some sampleElection ∧
    readyToCastState.selectedCandidate = some sampleCandidate ∧
    racingLedger.hasUserVoted sampleUser.id sampleElection.id = false ∧
    racingLedger.castVote sampleUser.id sampleElection.id
      sampleCandidate.id = .error .alreadyVoted ∧
    handleCastVote racingLedger (some sampleUser) readyToCastState =
      { state := { readyToCastState with isLoading := false },
        outcome := .failed .alreadyVoted, castVoteCalls := 1 } :=
  ⟨rfl, rfl, rfl, rfl,
    C3_already_voted_no_retry racingLedger sampleUser sampleElection
      sampleCandidate readyToCastState rfl rfl rfl rfl⟩

/-- C4: whenever the atomic `castVote` resolves with a transaction,
`handleCastVote` moves the workflow to the confirmation step 6, stores
exactly the hash of the returned transaction, and reports success
carrying that transaction. -/
theorem C4_success_confirmation (ledger : LedgerBehavior) (u : AuthUser)
    (e : Election) (c : Candidate) (s : VotingHookState)
    (t : VoteTransaction)
    (hE : s.selectedElection = some e)
    (hC : s.selectedCandidate = some c)
    (hV : ledger.hasUserVoted u.id e.id = false)
    (hCast : ledger.castVote u.id e.id c.id = .ok t) :
    (handleCastVote ledger (some u) s).state.step = 6 ∧
    (handleCastVote ledger (some u) s).state.transactionHash
      = some t.transactionHash ∧
    (handleCastVote ledger (some u) s).outcome = .success t := by
  unfold handleCastVote
  rw [hE, hC]
  simp [hV, hCast]

/-- Witness for `C4_success_confirmation` at a concrete input. -/
theorem C4_witness :
    readyToCastState.selectedElection = some sampleElection ∧
    readyToCastState.selectedCandidate = some sampleCandidate ∧
    permissiveLedger.hasUserVoted sampleUser.id sampleElection.id
      = false ∧
    permissiveLedger.castVote sampleUser.id sampleElection.id
      sampleCandidate.id = .ok sampleTxn ∧
    (handleCastVote permissiveLedger (some sampleUser)
      readyToCastState).state.step = 6 ∧
    (handleCastVote permissiveLedger (some sampleUser)
      readyToCastState).state.transactionHash
      = some sampleTxn.transactionHash :=
  ⟨rfl, rfl, rfl, rfl,
    (C4_success_confirmation permissiveLedger sampleUser sampleElection
      sampleCandidate readyToCastState sampleTxn rfl rfl rfl rfl).1,
    (C4_success_confirmation permissiveLedger sampleUser sampleElection
      sampleCandidate readyToCastState sampleTxn rfl rfl rfl rfl).2.1⟩

/-- C5, counterexample: with the session below Verified (step 1, the
initial state), the `handleSelectElection` input — not one of the two
factor signals — moves the session state, contradicting the claim that
only the face and OTP signals can change it. -/
theorem C5_counterexample :
    initialVotingHookState.step = 1 ∧
    (handleSelectElection sampleElection initialVotingHookState).step
      = 5 ∧
    handleSelectElection sampleElection initialVotingHookState
      ≠ initialVotingHookState := by
  refine ⟨rfl, rfl, ?_⟩
  decide

/-- C5 (amended): the factor signals are not the only inputs that can
move the session below Verified: `handleSelectElection` records a
selection and sets the step to 5 from every state, verified or not
(and the raw `setStep` setter is exposed by the hook as well). -/
theorem C5_selection_moves_any_state (e : Election)
    (s : VotingHookState) :
    (handleSelectElection e s).step = 5 ∧
    (handleSelectElection e s).selectedElection = some e :=
  ⟨rfl, rfl⟩

/-- C6: the face-factor failure signal returns the session to step 1 —
the workflow's initial step — touching nothing else, and the
OTP-factor failure signal leaves the whole state unchanged (so a
session at the OTP stage stays at the OTP stage); neither signal
aborts the session. -/
theorem C6_failure_edges (s : VotingHookState) :
    (handleFaceVerificationError s) = { s with step := 1 } ∧
    initialVotingHookState.step = 1 ∧
    handleOTPVerificationError s = s :=
  ⟨rfl, rfl, rfl⟩

/-- C7, counterexample: a face-verification attempt with no reference
image but also no authenticated user skips the reference-missing guard
(`!referenceImage && user` is false) and the demo comparison reports
the face verified, so `onVerified` is invoked — contradicting the
claim that every no-reference attempt surfaces the reference-missing
failure and never verifies. -/
theorem C7_counterexample :
    verifyFace none none "captured" 0 0 = FaceOutcome.verified ∧
    verifyFace none none "captured" 0 0
      ≠ FaceOutcome.referenceMissing := by
  have h8 : (0 : ℚ) < 8/10 := by norm_num
  constructor
  · simp [verifyFace, simulateFaceComparison, h8]
  · simp [verifyFace, simulateFaceComparison, h8]

/-- C7 (amended): when no reference image exists and an authenticated
user is present, `verifyFace` stops at the reference-missing guard for
every captured image and every random draw — `onVerified` is never
invoked on that path; without a user the guard does not fire and the
demo comparison may verify. -/
theorem C7_no_reference_guard (u : AuthUser) (cap : String)
    (draw confDraw : ℚ) :
    verifyFace (some u) none cap draw confDraw
      = FaceOutcome.referenceMissing ∧
    verifyFace (some u) none cap draw confDraw
      ≠ FaceOutcome.verified := by
  constructor
  · rfl
  · intro h
    exact absurd h (by simp [verifyFace])

/-- C8: for a submitted code of full length 4, `handleVerify` invokes
`onVerified` exactly when the submitted code equals the generated
code; on any mismatch it invokes `onError` and clears the entered
code. -/
theorem C8_otp_match (otp generatedOtp : String)
    (h : otp.length = 4) :
    ((handleVerify otp generatedOtp).1 = OtpOutcome.verified ↔
      otp = generatedOtp) ∧
    (otp ≠ generatedOtp →
      (handleVerify otp generatedOtp).1 = OtpOutcome.invalid ∧
      (handleVerify otp generatedOtp).2 = "") := by
  have hlen : ¬ otp.length < 4 := by omega
  by_cases hq : otp = generatedOtp
  · subst hq
    simp [handleVerify, hlen]
  · simp [handleVerify, hlen, hq]

/-- Witness for `C8_otp_match` at a concrete input. -/
theorem C8_witness :
    ("1234" : String).length = 4 ∧
    (((handleVerify "1234" "1234").1 = OtpOutcome.verified ↔
      ("1234" : String) = "1234") ∧
    (("1234" : String) ≠ "1234" →
      (handleVerify "1234" "1234").1 = OtpOutcome.invalid ∧
      (handleVerify "1234" "1234").2 = "")) :=
  ⟨rfl, C8_otp_match "1234" "1234" rfl⟩

/-- C9: the verified outcome of `simulateFaceComparison` is a function
of the reference-presence flag and the random draw alone — two calls
agreeing on those agree on `verified`, whatever image data either call
received and whatever the confidence draws were. -/
theorem C9_image_independence (cap₁ cap₂ : String)
    (ref₁ ref₂ : Option String) (draw confDraw₁ confDraw₂ : ℚ)
    (h : ref₁.isSome = ref₂.isSome) :
    (simulateFaceComparison cap₁ ref₁ draw confDraw₁).verified =
    (simulateFaceComparison cap₂ ref₂ draw confDraw₂).verified := by
  cases ref₁ with
  | none =>
      cases ref₂ with
      | none =>
          by_cases hd : draw < 8/10 <;>
            simp [simulateFaceComparison, hd]
      | some r => simp at h
  | some r =>
      cases ref₂ with
      | none => simp at h
      | some r₂ =>
          by_cases hd : draw < 7/10 <;>
            simp [simulateFaceComparison, hd]

/-- Witness for `C9_image_independence` at a concrete input. -/
theorem C9_witness :
    (some "refA" : Option String).isSome
      = (some "refB" : Option String).isSome ∧
    (simulateFaceComparison "imgOne" (some "refA")
      (1/2) 0).verified =
    (simulateFaceComparison "imgTwo" (some "refB")
      (1/2) (1/3)).verified :=
  ⟨rfl, C9_image_independence "imgOne" "imgTwo" (some "refA")
    (some "refB") (1/2) 0 (1/3) rfl⟩

/-- C10: `VotingContract.getInstance` is idempotent — whatever the
static field held before, a second call (even with a different
allocator token available) returns exactly the object the first call
returned and leaves the static field unchanged, so all callers share
the one `ElectionService` and the one `VotingService` of that
object. -/
theorem C10_getInstance_idempotent (fresh₁ fresh₂ : Nat)
    (st : Option VotingContract) :
    (VotingContract.getInstance fresh₂
        (VotingContract.getInstance fresh₁ st).2).1
      = (VotingContract.getInstance fresh₁ st).1 ∧
    (VotingContract.getInstance fresh₂
        (VotingContract.getInstance fresh₁ st).2).2
      = (VotingContract.getInstance fresh₁ st).2 ∧
    (VotingContract.getInstance fresh₂
        (VotingContract.getInstance fresh₁ st).2).1.electionService
      = (VotingContract.getInstance fresh₁ st).1.electionService ∧
    (VotingContract.getInstance fresh₂
        (VotingContract.getInstance fresh₁ st).2).1.votingService
      = (VotingContract.getInstance fresh₁ st).1.votingService := by
  cases st <;> simp [VotingContract.getInstance]
